import Mathlib

/-!
Verification development for the tabular summary formatter in
`src/pytimetk/utils/pandas_helpers.py` (functions `glimpse`,
`_glimpse_pandas`, `_glimpse_polars`, `flatten_multiindex_column_names`,
`update_dict`).

A data frame is modelled as a list of columns; every column carries its
name, the string form of its dtype, and its cell values already rendered
as strings (the Python code only ever uses the textual form of the
values, via the repr of a Python list or the str of an imploded array).
Standard-output effects are modelled by returning the list of emitted
lines together with an optional raised exception message; a run that
raises returns the lines printed before the raise.
-/

namespace PandasHelpers

/-- A single quote character, used inside literal message strings. -/
def sq : String := (Char.ofNat 39).toString

/-- Python `str.ljust(w)`: pad on the right with spaces up to width `w`;
a string already at least `w` long is returned unchanged. -/
def ljust (s : String) (w : Nat) : String :=
  s ++ (List.replicate (w - s.length) ' ').asString

/-- Python slice `s[0:k]` where `k` may be negative (a negative stop
counts from the end of the string, clamping at 0). -/
def pySlice (s : String) (k : Int) : String :=
  let stop : Int := if k < 0 then (s.length : Int) + k else k
  (s.toList.take stop.toNat).asString

/-- Python `str.strip()`: remove leading and trailing whitespace. -/
def pyStrip (s : String) : String :=
  (((s.toList.dropWhile Char.isWhitespace).reverse.dropWhile
      Char.isWhitespace).reverse).asString

/-- `pandas.Series.head(n)` on a list: the first `n` elements for
`n ≥ 0`; for negative `n`, all but the last `|n|` elements. -/
def pyHead (l : List String) (n : Int) : List String :=
  let k : Int := if n < 0 then (l.length : Int) + n else n
  l.take k.toNat

/-- The textual form of a Python list whose elements render as the given
strings: `[e1, e2, ...]`. -/
def pyListStr (vs : List String) : String :=
  "[" ++ String.intercalate ", " vs ++ "]"

/-- One column of a data frame: its name, the string form of its dtype,
and its cells, each already rendered as the string Python would show. -/
structure Col where
  name : String
  dtype : String
  vals : List String
  deriving DecidableEq

/-- A data frame: ordered columns plus the row count reported by
`df.shape[0]` / `len(df)`. -/
structure DataFrame where
  cols : List Col
  nrows : Nat
  deriving DecidableEq

/-- A data frame is well formed when every column has exactly `nrows`
cells. -/
def DataFrame.Valid (df : DataFrame) : Prop :=
  ∀ c ∈ df.cols, c.vals.length = df.nrows

/-- `len(max(df.columns, key=len))` on a nonempty column list: the
length of the longest column name. The Python call raises `ValueError`
on an empty sequence; the callers below guard for that case. -/
def maxNameLen (df : DataFrame) : Nat :=
  df.cols.foldl (fun a c => max a c.name.length) 0

/-- The rendering of `type(df)` for a pandas `DataFrame`. -/
def pandasKind : String :=
  "<class " ++ sq ++ "pandas.core.frame.DataFrame" ++ sq ++ ">"

/-- The header line both engines print:
`f"{type(df)}: {df.shape[0]} rows of {df.shape[1]} columns"`. -/
def headerLine (df : DataFrame) : String :=
  pandasKind ++ ": " ++ toString df.nrows ++ " rows of "
    ++ toString df.cols.length ++ " columns"

/-- The un-truncated per-column line of `_glimpse_pandas`
(`output_combined` before the trim): name field padded to
`_max_len + 1`, dtype field padded to `15 + 3`, then the list of the
first `max_width` values. -/
def glimpseColRaw (df : DataFrame) (maxWidth : Int) (c : Col) : String :=
  let colVals := pyListStr (pyHead c.vals maxWidth)
  let outputCol := ljust (c.name ++ ":") (maxNameLen df + 1)
  let outputDtype := ljust (" " ++ c.dtype) (15 + 3)
  outputCol ++ " " ++ outputDtype ++ " " ++ colVals

/-- The trim step of `_glimpse_pandas`: if the combined line is longer
than `max_width`, keep `output_combined[0:(max_width-4)]` (a Python
slice, so a negative stop counts from the end) and append `" ..."`. -/
def trimLine (s : String) (maxWidth : Int) : String :=
  if (s.length : Int) > maxWidth then pySlice s (maxWidth - 4) ++ " ..."
  else s

/-- The message of the `ValueError` Python raises for
`max(<empty>, key=len)`. -/
def emptySeqMsg : String := "ValueError: max() arg is an empty sequence"

/-- `_glimpse_pandas`: on an empty column list the `max` computation
raises before anything is printed; otherwise the header line is printed
followed by one trimmed line per column. The result is the pair
(lines printed, raised exception message if any). -/
def glimpsePandasRun (df : DataFrame) (maxWidth : Int) :
    List String × Option String :=
  if df.cols.isEmpty then ([], some emptySeqMsg)
  else
    (headerLine df :: df.cols.map (fun c => trimLine (glimpseColRaw df maxWidth c) maxWidth),
     none)

/-- The preview cell of `_glimpse_polars` before slicing: the string
form of the column's first 15 values imploded into one cell
(`pl.all().head(15).implode()`, transposed and rendered by
`astype(str)`; the element list is modelled in the same bracketed
comma-separated form used for the values the frame carries). -/
def previewCell (c : Col) : String :=
  pyListStr (c.vals.take 15)

/-- The final preview text of `_glimpse_polars`: the cell string sliced
with `str.slice(stop=(max_width - _max_len - 15))` (Python slice, so a
negative stop counts from the end), after which `'...'` is appended
unconditionally (`.fillna('')` is a no-op since `astype(str)` leaves no
missing values). -/
def polarsPreview (df : DataFrame) (maxWidth : Int) (c : Col) : String :=
  pySlice (previewCell c) (maxWidth - (maxNameLen df : Int) - 15) ++ "..."

/-- The width `pandas.DataFrame.to_string` gives a column: the larger of
the label's length and the longest (left-align-formatted) cell. -/
def colWidth (label : String) (cells : List String) : Nat :=
  max label.length (cells.foldl (fun a s => max a s.length) 0)

/-- One rendered row of the three-column intermediate frame: each cell
left-justified to its column's width, columns separated by one space
(the left alignment of the cells comes from `make_lalign_formatter` and
`justify='left'`). -/
def row3 (w1 w2 w3 : Nat) (a b c : String) : String :=
  ljust a w1 ++ " " ++ ljust b w2 ++ " " ++ ljust c w3

/-- Width of the name column of the intermediate frame (label `''`). -/
def polarsW1 (df : DataFrame) : Nat :=
  colWidth "" (df.cols.map Col.name)

/-- Width of the dtype column of the intermediate frame (label `' '`,
renamed from `'0'`). -/
def polarsW2 (df : DataFrame) : Nat :=
  colWidth " " (df.cols.map Col.dtype)

/-- Width of the preview column of the intermediate frame (label `'  '`,
renamed from `'column_0'`). -/
def polarsW3 (df : DataFrame) (maxWidth : Int) : Nat :=
  colWidth "  " (df.cols.map (polarsPreview df maxWidth))

/-- The first line of `final_df.to_string(...)`: the row of the three
(whitespace) column labels `''`, `' '`, `'  '`, each padded to its
column's width. -/
def finalHeaderRow (df : DataFrame) (maxWidth : Int) : String :=
  row3 (polarsW1 df) (polarsW2 df) (polarsW3 df maxWidth) "" " " "  "

/-- The row of `final_df.to_string(...)` for one original column: its
name, dtype string and preview text, each padded to its column's
width. -/
def finalDataRow (df : DataFrame) (maxWidth : Int) (c : Col) : String :=
  row3 (polarsW1 df) (polarsW2 df) (polarsW3 df maxWidth)
    c.name c.dtype (polarsPreview df maxWidth c)

/-- `_glimpse_polars`: on an empty column list the `max` computation
raises before anything is printed. Otherwise the header text is printed
with `end=""` (no newline), so the first emitted line is the header
text immediately followed by the first line of
`final_df.to_string(...)` — the label row — and then one line per
original column follows. -/
def glimpsePolarsRun (df : DataFrame) (maxWidth : Int) :
    List String × Option String :=
  if df.cols.isEmpty then ([], some emptySeqMsg)
  else
    ((headerLine df ++ finalHeaderRow df maxWidth)
       :: df.cols.map (finalDataRow df maxWidth),
     none)

/-- The message of the `ValueError` raised for an unrecognized engine. -/
def invalidEngineMsg : String :=
  "Invalid engine. Use " ++ sq ++ "pandas" ++ sq ++ " or "
    ++ sq ++ "polars" ++ sq ++ "."

/-- `glimpse(data, max_width, engine)` on a data frame (the
`check_dataframe_or_groupby` precondition check passes silently for a
data frame): dispatch on the engine string, raising `ValueError` with a
fixed message — and emitting nothing — for any unrecognized engine. -/
def glimpse (df : DataFrame) (maxWidth : Int) (engine : String) :
    List String × Option String :=
  if engine = "pandas" then glimpsePandasRun df maxWidth
  else if engine = "polars" then glimpsePolarsRun df maxWidth
  else ([], some invalidEngineMsg)

/-- A column identifier of a frame passed to
`flatten_multiindex_column_names`: either an already-flat name or a
tuple of string parts (a pandas multi-index entry). -/
inductive ColId where
  | flat (s : String)
  | tup (parts : List String)
  deriving DecidableEq

/-- A frame as seen by the flattener: only its column identifiers
matter. -/
structure FTable where
  colIds : List ColId
  deriving DecidableEq

/-- The list comprehension of `flatten_multiindex_column_names`:
`sep.join(col).strip() if isinstance(col, tuple) else col` for each
column identifier. -/
def flattenCols (sep : String) (ids : List ColId) : List ColId :=
  ids.map fun id =>
    match id with
    | ColId.tup parts => ColId.flat (pyStrip (String.intercalate sep parts))
    | ColId.flat s => ColId.flat s

/-- State-passing embedding of `flatten_multiindex_column_names(data, sep)`:
the function assigns `data.columns = [...]` in place and then returns
`data`, so the call yields the pair (returned frame, state of the
argument frame after the call) — and the two components are the same
object. -/
def flattenCall (sep : String) (t : FTable) : FTable × FTable :=
  let t2 : FTable := ⟨flattenCols sep t.colIds⟩
  (t2, t2)

/-- Lookup in an association-list model of a Python dict: the value at
the first matching key. -/
def lookupKey {K V : Type} [DecidableEq K] (d : List (K × V)) (k : K) :
    Option V :=
  match d with
  | [] => none
  | kv :: rest => if kv.1 = k then some kv.2 else lookupKey rest k

/-- `update_dict(d1, d2)`: for each key of `d1`, replace its value with
`d2`'s value when the key is present in `d2`; keys only in `d2` are
never added. -/
def update_dict {K V : Type} [DecidableEq K] (d1 d2 : List (K × V)) :
    List (K × V) :=
  d1.map fun kv =>
    match lookupKey d2 kv.1 with
    | some v => (kv.1, v)
    | none => kv

/-- State-passing embedding of the `update_dict(d1, d2)` call: the
function mutates `d1` in place and returns it, so the call yields
(returned dict, state of `d1` after the call), the two components being
the same object. -/
def updateDictCall {K V : Type} [DecidableEq K] (d1 d2 : List (K × V)) :
    List (K × V) × List (K × V) :=
  let r := update_dict d1 d2
  (r, r)

/-- Flat check on a column identifier, used to state the no-op cases of
the flattener. -/
def ColId.isFlat : ColId → Bool
  | ColId.flat _ => true
  | ColId.tup _ => false

/-- Concrete example frame: the two-column table of the spec's example
scenario (a `name` column of three strings and an `age` column of three
integers). -/
def colName : Col := ⟨"name", "object", [sq ++ "Alice" ++ sq, sq ++ "Bob" ++ sq, sq ++ "Cara" ++ sq]⟩

/-- Concrete example frame: the `age` column of the spec's example
scenario. -/
def colAge : Col := ⟨"age", "int64", ["30", "25", "40"]⟩

/-- The example frame with columns `name` and `age` and three rows. -/
def dfAB : DataFrame := ⟨[colName, colAge], 3⟩

/-- A zero-column frame (a supported, valid table per the spec). -/
def dfEmpty : DataFrame := ⟨[], 0⟩

/-- A column label as `glimpse` can actually receive it: pandas also
permits non-string labels, e.g. integer column names. A string label
supports Python `len()`; an integer label does not, so `len()` on it
raises `TypeError`. The `Col`/`DataFrame` model above keeps labels as
strings (the spec's data model); this extended label type exists for
the behavior on frames whose labels need not be strings. -/
inductive GColName where
  | str (s : String)
  | intLabel (n : Int)
  deriving DecidableEq

/-- Whether a label is a string. -/
def GColName.isStr : GColName → Bool
  | GColName.str _ => true
  | GColName.intLabel _ => false

/-- Python `len()` on a column label: the character count of a string
label; no value (a raised `TypeError`) for an integer label. -/
def GColName.pyLen : GColName → Option Nat
  | GColName.str s => some s.length
  | GColName.intLabel _ => none

/-- Python `str()` of a column label, as used by `f"{_column}:"`. -/
def GColName.pyStr : GColName → String
  | GColName.str s => s
  | GColName.intLabel n => toString n

/-- A column whose label may be a non-string object. -/
structure GCol where
  name : GColName
  dtype : String
  vals : List String
  deriving DecidableEq

/-- A data frame whose column labels may be non-string objects. -/
structure GDataFrame where
  cols : List GCol
  nrows : Nat
  deriving DecidableEq

/-- Well-formedness of an extended frame: every column has exactly
`nrows` cells. -/
def GDataFrame.Valid (df : GDataFrame) : Prop :=
  ∀ c ∈ df.cols, c.vals.length = df.nrows

/-- The message of the `TypeError` Python raises when `len()` is
applied to an integer column label inside `max(df.columns, key=len)`. -/
def typeErrorIntLen : String :=
  "TypeError: object of type " ++ sq ++ "int" ++ sq ++ " has no len()"

/-- `len(max(cols, key=len))` on labels that may not support `len()`:
raises `ValueError` on an empty column sequence, raises `TypeError` as
soon as a label without `len()` is inspected, and otherwise yields the
length of the longest label. -/
def gMaxNameLen (cols : List GCol) : Except String Nat :=
  if cols.isEmpty then Except.error emptySeqMsg
  else if cols.all (fun c => c.name.pyLen.isSome) then
    Except.ok (cols.foldl (fun a c => max a (c.name.pyLen.getD 0)) 0)
  else Except.error typeErrorIntLen

/-- The string-labelled view of an extended frame: every label rendered
by `str()`. On a frame whose labels are all strings this is the same
frame, label for label. -/
def GDataFrame.toStrNamed (df : GDataFrame) : DataFrame :=
  ⟨df.cols.map (fun c => ⟨c.name.pyStr, c.dtype, c.vals⟩), df.nrows⟩

/-- `glimpse` on an extended frame: engine dispatch first (lines
52-57), then the `max(df.columns, key=len)` computation of the chosen
helper (line 65 or 92), which raises before anything is printed when a
label lacks `len()` or there is no column; past that point every label
inspected is a string, so the run is the string-labelled run above. -/
def gGlimpse (df : GDataFrame) (mw : Int) (engine : String) :
    List String × Option String :=
  if engine = "pandas" then
    match gMaxNameLen df.cols with
    | Except.error e => ([], some e)
    | Except.ok _ => glimpsePandasRun df.toStrNamed mw
  else if engine = "polars" then
    match gMaxNameLen df.cols with
    | Except.error e => ([], some e)
    | Except.ok _ => glimpsePolarsRun df.toStrNamed mw
  else ([], some invalidEngineMsg)

/-- A valid one-column extended frame whose only label is the integer
`0`. -/
def gdfInt : GDataFrame := ⟨[⟨GColName.intLabel 0, "int64", ["1"]⟩], 1⟩

/-- A valid one-column extended frame with the string label `"a"`. -/
def gdfOne : GDataFrame := ⟨[⟨GColName.str "a", "int64", ["1"]⟩], 1⟩

/-- A zero-column extended frame. -/
def gdfEmpty : GDataFrame := ⟨[], 0⟩

section Lemmas

/-- Length of a `pySlice` with a nonnegative stop: the smaller of the
stop and the string's length. -/
theorem pySlice_length_of_nonneg (s : String) (k : Int) (hk : 0 ≤ k) :
    (pySlice s k).length = min k.toNat s.length := by
  unfold pySlice
  rw [if_neg (by omega)]
  rw [List.length_asString, List.length_take]
  rfl

/-- The trimmed line of `_glimpse_pandas` never exceeds `max_width`
when `max_width ≥ 4`, and a line that needed trimming comes out at
exactly `max_width` characters. -/
theorem trimLine_length (s : String) (mw : Int) (h4 : 4 ≤ mw) :
    ((trimLine s mw).length : Int) ≤ mw ∧
    ((s.length : Int) > mw → ((trimLine s mw).length : Int) = mw) := by
  unfold trimLine
  by_cases h : (s.length : Int) > mw
  · rw [if_pos h]
    have hs : (pySlice s (mw - 4) ++ " ...").length
        = min (mw - 4).toNat s.length + 4 := by
      rw [String.length_append, pySlice_length_of_nonneg s _ (by omega)]
      rfl
    have hmin : min (mw - 4).toNat s.length = (mw - 4).toNat := by
      omega
    rw [hs, hmin]
    constructor <;> (intros; omega)
  · rw [if_neg h]
    exact ⟨le_of_not_lt h, fun hc => absurd hc h⟩

/-- A line that needed trimming ends with the four-character suffix
`" ..."`. -/
theorem trimLine_ends_with (s : String) (mw : Int)
    (h : (s.length : Int) > mw) :
    ∃ p, trimLine s mw = p ++ " ..." := by
  unfold trimLine
  rw [if_pos h]
  exact ⟨_, rfl⟩

/-- Flattening a list of identifiers none of which is a tuple changes
nothing. -/
theorem flattenCols_of_flat (sep : String) (ids : List ColId)
    (h : ∀ id ∈ ids, id.isFlat = true) : flattenCols sep ids = ids := by
  induction ids with
  | nil => rfl
  | cons id rest ih =>
    cases id with
    | flat s =>
      simp only [flattenCols, List.map_cons] at ih ⊢
      rw [ih fun i hi => h i (List.mem_cons_of_mem _ hi)]
    | tup ps =>
      have := h (ColId.tup ps) (List.mem_cons_self _ _)
      simp [ColId.isFlat] at this

/-- The keys of `update_dict d1 d2` are exactly the keys of `d1`, in
order. -/
theorem update_dict_keys {K V : Type} [DecidableEq K]
    (d1 d2 : List (K × V)) :
    (update_dict d1 d2).map Prod.fst = d1.map Prod.fst := by
  induction d1 with
  | nil => rfl
  | cons kv rest ih =>
    simp only [update_dict, List.map_cons] at ih ⊢
    cases h : lookupKey d2 kv.1 <;> simp [h, ih]

/-- The value `update_dict d1 d2` holds at a key of `d1`: the value from
`d2` when the key occurs there, `d1`'s original value otherwise. -/
theorem update_dict_lookup {K V : Type} [DecidableEq K]
    (d1 d2 : List (K × V)) (k : K) :
    lookupKey (update_dict d1 d2) k =
      match lookupKey d2 k with
      | some v => (lookupKey d1 k).map fun _ => v
      | none => lookupKey d1 k := by
  induction d1 with
  | nil => cases lookupKey d2 k <;> rfl
  | cons kv rest ih =>
    by_cases hk : kv.1 = k
    · subst hk
      cases h : lookupKey d2 kv.1 <;>
        simp [update_dict, lookupKey, h]
    · cases h : lookupKey d2 k <;>
        cases h2 : lookupKey d2 kv.1 <;>
          simp_all [update_dict, lookupKey]

/-- A string label supports `len()`. -/
theorem GColName.pyLen_isSome_of_isStr (n : GColName)
    (h : n.isStr = true) : n.pyLen.isSome = true := by
  cases n <;> simp [GColName.isStr, GColName.pyLen] at h ⊢

/-- A non-string label does not support `len()`. -/
theorem GColName.pyLen_none_of_not_isStr (n : GColName)
    (h : n.isStr = false) : n.pyLen = none := by
  cases n <;> simp_all [GColName.isStr, GColName.pyLen]

/-- On a nonempty frame whose labels are all strings the
`max(key=len)` computation succeeds. -/
theorem gMaxNameLen_ok (cols : List GCol) (h1 : cols ≠ [])
    (h2 : ∀ c ∈ cols, c.name.isStr = true) :
    ∃ k, gMaxNameLen cols = Except.ok k := by
  have hne : cols.isEmpty = false := by
    cases hcols : cols
    · exact absurd hcols h1
    · rfl
  have hall : cols.all (fun c => c.name.pyLen.isSome) = true := by
    rw [List.all_eq_true]
    intro c hc
    exact GColName.pyLen_isSome_of_isStr _ (h2 c hc)
  refine ⟨cols.foldl (fun a c => max a (c.name.pyLen.getD 0)) 0, ?_⟩
  simp [gMaxNameLen, hne, hall]

/-- On a frame one of whose labels is not a string the `max(key=len)`
computation raises `TypeError`. -/
theorem gMaxNameLen_typeError (cols : List GCol)
    (h : ∃ c ∈ cols, c.name.isStr = false) :
    gMaxNameLen cols = Except.error typeErrorIntLen := by
  obtain ⟨c, hc, hcf⟩ := h
  have hne : cols.isEmpty = false := by
    cases hcols : cols
    · rw [hcols] at hc
      cases hc
    · rfl
  have hall : cols.all (fun c => c.name.pyLen.isSome) = false := by
    rw [Bool.eq_false_iff]
    intro hall
    rw [List.all_eq_true] at hall
    have := hall c hc
    rw [GColName.pyLen_none_of_not_isStr _ hcf] at this
    cases this
  simp [gMaxNameLen, hne, hall]

end Lemmas

/-- Claim C3: for every input table and every engine string other than
the two recognized values, `glimpse` raises the unsupported-engine
`ValueError` and emits no output line at all — validation precedes any
emission. -/
theorem C3_unsupported_engine (df : DataFrame) (mw : Int) (engine : String)
    (h1 : engine ≠ "pandas") (h2 : engine ≠ "polars") :
    glimpse df mw engine = ([], some invalidEngineMsg) := by
  simp [glimpse, h1, h2]

/-- Witness for C3 at the concrete engine string `"bogus"` on the
example frame. -/
theorem C3_witness :
    glimpse dfAB 76 "bogus" = ([], some invalidEngineMsg) :=
  C3_unsupported_engine dfAB 76 "bogus" (by decide) (by decide)

/-- Claim C8 is false: the unsupported-engine message is a fixed string
that does not contain the invalid engine value that was passed (here
`"bogus"`). -/
theorem C8_counterexample :
    (glimpse dfAB 76 "bogus").2 = some invalidEngineMsg ∧
    ¬ "bogus".toList <:+: invalidEngineMsg.toList :=
  ⟨rfl, by decide⟩

/-- Claim C8 amended: whenever `glimpse` fails with the
unsupported-engine error, the message is the same fixed string
`Invalid engine. Use 'pandas' or 'polars'.` naming the two supported
values — it does not name the invalid value that was passed. -/
theorem C8_amended_fixed_message (df : DataFrame) (mw : Int)
    (engine : String) (h1 : engine ≠ "pandas") (h2 : engine ≠ "polars") :
    (glimpse df mw engine).2 = some invalidEngineMsg := by
  simp [glimpse, h1, h2]

/-- Witness for the amended C8 at the concrete engine `"polar"`. -/
theorem C8_witness :
    (glimpse dfAB 76 "polar").2 = some invalidEngineMsg :=
  C8_amended_fixed_message dfAB 76 "polar" (by decide) (by decide)

/-- Claim C10: `update_dict(d1, d2)` returns `d1` itself (mutated in
place, modelled as the post-state of the first argument), its key
sequence is unchanged, every key of `d1` maps to `d2`'s value when the
key occurs in `d2` and to its original value otherwise, and keys only
in `d2` are ignored (no key is added). -/
theorem C10_update_dict {K V : Type} [DecidableEq K]
    (d1 d2 : List (K × V)) :
    (updateDictCall d1 d2).2 = (updateDictCall d1 d2).1 ∧
    (update_dict d1 d2).map Prod.fst = d1.map Prod.fst ∧
    ∀ k : K, lookupKey (update_dict d1 d2) k =
      match lookupKey d2 k with
      | some v => (lookupKey d1 k).map fun _ => v
      | none => lookupKey d1 k :=
  ⟨rfl, update_dict_keys d1 d2, update_dict_lookup d1 d2⟩

/-- Claim C5 is false: the flattener mutates its argument in place — on
a frame with a tuple identifier, the argument's columns after the call
differ from what they were before. -/
theorem C5_counterexample :
    (flattenCall "_" ⟨[ColId.tup ["values", "value1"]]⟩).2
      ≠ (⟨[ColId.tup ["values", "value1"]]⟩ : FTable) := by
  decide

/-- Claim C5 amended: the flattener returns its argument mutated in
place — after the call the argument's column identifiers are the
flattened identifiers and the returned frame is that same frame; the
argument is left unchanged exactly in the no-op case, in particular
whenever none of its column identifiers is a tuple. -/
theorem C5_amended_mutates_in_place (sep : String) (t : FTable) :
    (flattenCall sep t).2 = (flattenCall sep t).1 ∧
    (flattenCall sep t).2.colIds = flattenCols sep t.colIds ∧
    ((∀ id ∈ t.colIds, id.isFlat = true) → (flattenCall sep t).2 = t) := by
  refine ⟨rfl, rfl, fun h => ?_⟩
  show (⟨flattenCols sep t.colIds⟩ : FTable) = t
  rw [flattenCols_of_flat sep t.colIds h]

/-- Witness for the amended C5 on a frame with only flat names. -/
theorem C5_witness :
    (flattenCall "_" (⟨[ColId.flat "date"]⟩ : FTable)).2
      = (⟨[ColId.flat "date"]⟩ : FTable) :=
  (C5_amended_mutates_in_place "_" ⟨[ColId.flat "date"]⟩).2.2 (by decide)

/-- Claim C6 is false as stated: a tuple identifier is not replaced by
its parts joined with the separator — the joined string is additionally
stripped of surrounding whitespace, so the tuple `(" a", "b")` with
separator `"_"` does not flatten to `" a_b"` (the plain join) but to
`"a_b"`. -/
theorem C6_counterexample :
    (flattenCall "_" ⟨[ColId.tup [" a", "b"]]⟩).1.colIds
      ≠ [ColId.flat (String.intercalate "_" [" a", "b"])] := by
  decide

/-- Claim C6 amended: the flattener's result has, for each column
identifier in order, the parts joined by the separator and then
stripped of leading and trailing whitespace when the identifier is a
tuple, and the identifier unchanged otherwise; flattening a frame with
only non-tuple names is a no-op, and flattening the columns
`("values","value1")`, `("values","value2")` with separator `"_"`
yields `"values_value1"`, `"values_value2"`. -/
theorem C6_amended_flatten (sep : String) (t : FTable) :
    ((flattenCall sep t).1.colIds.length = t.colIds.length ∧
     ∀ i : Nat, (flattenCall sep t).1.colIds[i]? =
       (t.colIds[i]?).map fun id =>
         match id with
         | ColId.tup ps => ColId.flat (pyStrip (String.intercalate sep ps))
         | ColId.flat s => ColId.flat s) ∧
    ((∀ id ∈ t.colIds, id.isFlat = true) → (flattenCall sep t).1 = t) ∧
    (flattenCall "_"
        ⟨[ColId.tup ["values", "value1"], ColId.tup ["values", "value2"]]⟩).1.colIds
      = [ColId.flat "values_value1", ColId.flat "values_value2"] := by
  refine ⟨⟨?_, ?_⟩, fun h => ?_, by decide⟩
  · simp [flattenCall, flattenCols]
  · intro i
    simp [flattenCall, flattenCols, List.getElem?_map]
  · show (⟨flattenCols sep t.colIds⟩ : FTable) = t
    rw [flattenCols_of_flat sep t.colIds h]

/-- Witness for the amended C6: the no-op part applied to a concrete
all-flat frame. -/
theorem C6_witness :
    (flattenCall "-" (⟨[ColId.flat "x", ColId.flat "y"]⟩ : FTable)).1
      = (⟨[ColId.flat "x", ColId.flat "y"]⟩ : FTable) :=
  (C6_amended_flatten "-" ⟨[ColId.flat "x", ColId.flat "y"]⟩).2.1 (by decide)

/-- Claim C2 is false: on a valid zero-column table — a supported table
per the spec's own data model — both engines raise `ValueError` from
`max()` on an empty sequence and emit 0 lines, not `1 + 0 = 1`. -/
theorem C2_counterexample :
    DataFrame.Valid dfEmpty ∧
    (glimpse dfEmpty 76 "pandas").1.length = 0 ∧
    (glimpse dfEmpty 76 "polars").1.length = 0 := by
  refine ⟨fun c hc => absurd hc (List.not_mem_nil c), by decide, by decide⟩

/-- Claim C2 amended: for every table with at least one column and both
recognized engines, `glimpse` emits exactly `1 + column_count` lines
(one header line plus one line per column); a zero-column table instead
raises before emitting anything. -/
theorem C2_amended_line_count (df : DataFrame) (mw : Int)
    (h : df.cols ≠ []) :
    (glimpse df mw "pandas").1.length = 1 + df.cols.length ∧
    (glimpse df mw "polars").1.length = 1 + df.cols.length := by
  have h' : df.cols.isEmpty = false := by
    cases hcols : df.cols
    · exact absurd hcols h
    · rfl
  constructor <;>
    simp [glimpse, glimpsePandasRun, glimpsePolarsRun, h', Nat.add_comm]

/-- Witness for the amended C2 on the concrete two-column example
frame. -/
theorem C2_witness :
    (glimpse dfAB 76 "pandas").1.length = 3 ∧
    (glimpse dfAB 76 "polars").1.length = 3 := by
  have h := C2_amended_line_count dfAB 76 (by decide)
  simpa [dfAB] using h

/-- Claim C4 is false: a valid one-column frame whose column label is
the integer `0` — a supported tabular structure with a non-string
column name, a case the claim covers explicitly — makes both engines
raise `TypeError` from `len()` inside the `max` computation, and a
zero-column frame makes both raise `ValueError`, instead of completing
and formatting whatever is present. -/
theorem C4_counterexample :
    GDataFrame.Valid gdfInt ∧
    (gGlimpse gdfInt 76 "pandas").2 = some typeErrorIntLen ∧
    (gGlimpse gdfInt 76 "polars").2 = some typeErrorIntLen ∧
    (gGlimpse gdfEmpty 76 "pandas").2 = some emptySeqMsg ∧
    (gGlimpse gdfEmpty 76 "polars").2 = some emptySeqMsg := by
  refine ⟨?_, by decide, by decide, by decide, by decide⟩
  intro c hc
  fin_cases hc
  rfl

/-- Claim C4 amended: a table with at least one column, all of whose
column labels are strings, completes under both recognized engines
without raising; a zero-column table makes both engines raise the
`ValueError` of `max()` on an empty sequence; and a table with a
non-string (integer) column label makes both engines raise `TypeError`
from `len()` on that label — in every failing case before emitting
anything. -/
theorem C4_amended_no_raise (df dfi : GDataFrame) (mw : Int)
    (h1 : df.cols ≠ [])
    (h2 : ∀ c ∈ df.cols, c.name.isStr = true)
    (h3 : ∃ c ∈ dfi.cols, c.name.isStr = false) :
    (gGlimpse df mw "pandas").2 = none ∧
    (gGlimpse df mw "polars").2 = none ∧
    (gGlimpse gdfEmpty mw "pandas").2 = some emptySeqMsg ∧
    (gGlimpse gdfEmpty mw "polars").2 = some emptySeqMsg ∧
    (gGlimpse dfi mw "pandas") = ([], some typeErrorIntLen) ∧
    (gGlimpse dfi mw "polars") = ([], some typeErrorIntLen) := by
  obtain ⟨k, hk⟩ := gMaxNameLen_ok df.cols h1 h2
  have hmapne : df.toStrNamed.cols.isEmpty = false := by
    cases hcols : df.cols
    · exact absurd hcols h1
    · simp [GDataFrame.toStrNamed, hcols]
  have herr := gMaxNameLen_typeError dfi.cols h3
  refine ⟨?_, ?_, rfl, rfl, ?_, ?_⟩ <;>
    simp [gGlimpse, hk, herr, glimpsePandasRun, glimpsePolarsRun, hmapne]

/-- Witness for the amended C4: the string-labelled one-column frame
completes under both engines, while the integer-labelled frame and the
zero-column frame raise. -/
theorem C4_witness :
    (gGlimpse gdfOne 76 "pandas").2 = none ∧
    (gGlimpse gdfOne 76 "polars").2 = none ∧
    (gGlimpse gdfEmpty 76 "pandas").2 = some emptySeqMsg ∧
    (gGlimpse gdfEmpty 76 "polars").2 = some emptySeqMsg ∧
    (gGlimpse gdfInt 76 "pandas") = ([], some typeErrorIntLen) ∧
    (gGlimpse gdfInt 76 "polars") = ([], some typeErrorIntLen) :=
  C4_amended_no_raise gdfOne gdfInt 76 (by decide) (by decide) (by decide)

/-- Claim C7 is false: with the alternate engine the header text is
printed with `end=""`, so the first emitted line is not exactly the
header — the label row of the intermediate frame is appended to it. -/
theorem C7_counterexample :
    DataFrame.Valid dfAB ∧
    (glimpse dfAB 76 "polars").1.head? ≠ some (headerLine dfAB) := by
  constructor
  · intro c hc
    fin_cases hc <;> rfl
  · decide

/-- Claim C7 amended: for tables with at least one column, the pandas
engine's first emitted line is exactly
`"<container-kind>: <row_count> rows of <column_count> columns"` with
the table's true dimensions and nothing further; the polars engine
prints that same header without a trailing newline, so its first line
is the header immediately followed by the label row of the
three-column intermediate frame; a zero-column table emits no line at
all. -/
theorem C7_amended_header (df : DataFrame) (mw : Int)
    (h : df.cols ≠ []) :
    (glimpse df mw "pandas").1.head? = some (headerLine df) ∧
    (glimpse df mw "polars").1.head?
      = some (headerLine df ++ finalHeaderRow df mw) ∧
    headerLine df = pandasKind ++ ": " ++ toString df.nrows
      ++ " rows of " ++ toString df.cols.length ++ " columns" := by
  have h' : df.cols.isEmpty = false := by
    cases hcols : df.cols
    · exact absurd hcols h
    · rfl
  refine ⟨?_, ?_, rfl⟩ <;>
    simp [glimpse, glimpsePandasRun, glimpsePolarsRun, h']

/-- Witness for the amended C7 on the concrete two-column example
frame. -/
theorem C7_witness :
    (glimpse dfAB 76 "pandas").1.head? = some (headerLine dfAB) ∧
    (glimpse dfAB 76 "polars").1.head?
      = some (headerLine dfAB ++ finalHeaderRow dfAB 76) ∧
    headerLine dfAB = pandasKind ++ ": " ++ toString dfAB.nrows
      ++ " rows of " ++ toString dfAB.cols.length ++ " columns" :=
  C7_amended_header dfAB 76 (by decide)

/-- Claim C9 is false: the ellipsis marker is not appended exactly when
truncation occurred — on a preview short enough to need no truncation
the rendered cell still receives a trailing `'...'`. -/
theorem C9_counterexample :
    ((previewCell colAge).length : Int) ≤ 76 - (maxNameLen dfAB : Int) - 15 ∧
    polarsPreview dfAB 76 colAge ≠ previewCell colAge := by
  constructor
  · decide
  · decide

/-- Claim C9 amended: the alternate engine's intermediate holds at most
15 leading values per original column, and the rendered preview cell is
the cell text sliced to `max_width - name_width - 15` characters
(keeping the smaller of that width and the cell's length, when the
width is nonnegative) with the three-character marker `'...'` appended
unconditionally — whether or not truncation occurred. -/
theorem C9_amended_preview (df : DataFrame) (mw : Int) (c : Col)
    (h : 0 ≤ mw - (maxNameLen df : Int) - 15) :
    (c.vals.take 15).length ≤ 15 ∧
    (polarsPreview df mw c).length
      = min (mw - (maxNameLen df : Int) - 15).toNat (previewCell c).length
          + 3 ∧
    ∃ p, polarsPreview df mw c = p ++ "..." := by
  refine ⟨?_, ?_, ⟨_, rfl⟩⟩
  · rw [List.length_take]
    exact Nat.min_le_left _ _
  · unfold polarsPreview
    rw [String.length_append, pySlice_length_of_nonneg _ _ h]
    rfl

/-- Witness for the amended C9 at the example frame's `age` column. -/
theorem C9_witness :
    ((colAge.vals.take 15).length ≤ 15 ∧
     (polarsPreview dfAB 76 colAge).length
       = min (76 - (maxNameLen dfAB : Int) - 15).toNat
           (previewCell colAge).length + 3 ∧
     ∃ p, polarsPreview dfAB 76 colAge = p ++ "...") :=
  C9_amended_preview dfAB 76 colAge (by decide)

/-- Claim C1 is false: the header line is emitted untruncated, so with
`max_width = 10` the first emitted line of the pandas engine is longer
than `max_width`. -/
theorem C1_counterexample :
    10 < ((glimpse dfAB 10 "pandas").1.getD 0 "").length := by
  decide

/-- Claim C1 amended: for the pandas engine with `max_width ≥ 4`, every
emitted per-column line has length at most `max_width`, and a column
line whose un-truncated rendering exceeds `max_width` is emitted with
length exactly `max_width` and ends with the four-character suffix
`" ..."`; the header line is emitted without truncation and the polars
engine's lines are not subject to the bound. -/
theorem C1_amended_column_width (df : DataFrame) (mw : Int) (c : Col)
    (h4 : 4 ≤ mw) (hc : c ∈ df.cols) :
    trimLine (glimpseColRaw df mw c) mw ∈ (glimpse df mw "pandas").1 ∧
    ((trimLine (glimpseColRaw df mw c) mw).length : Int) ≤ mw ∧
    (((glimpseColRaw df mw c).length : Int) > mw →
      ((trimLine (glimpseColRaw df mw c) mw).length : Int) = mw ∧
      ∃ p, trimLine (glimpseColRaw df mw c) mw = p ++ " ...") := by
  have h' : df.cols.isEmpty = false := by
    cases hcols : df.cols
    · rw [hcols] at hc
      cases hc
    · rfl
  refine ⟨?_, (trimLine_length _ mw h4).1, fun hlong =>
    ⟨(trimLine_length _ mw h4).2 hlong, trimLine_ends_with _ mw hlong⟩⟩
  have hrun : (glimpse df mw "pandas").1
      = headerLine df
          :: df.cols.map (fun c => trimLine (glimpseColRaw df mw c) mw) := by
    simp [glimpse, glimpsePandasRun, h']
  rw [hrun]
  exact List.mem_cons_of_mem _ (List.mem_map_of_mem _ hc)

/-- Witness for the amended C1: at `max_width = 10` the example frame's
`name` column line is truncated to exactly 10 characters ending in
`" ..."`. -/
theorem C1_witness :
    trimLine (glimpseColRaw dfAB 10 colName) 10 ∈ (glimpse dfAB 10 "pandas").1 ∧
    ((trimLine (glimpseColRaw dfAB 10 colName) 10).length : Int) ≤ 10 ∧
    (((glimpseColRaw dfAB 10 colName).length : Int) > 10 →
      ((trimLine (glimpseColRaw dfAB 10 colName) 10).length : Int) = 10 ∧
      ∃ p, trimLine (glimpseColRaw dfAB 10 colName) 10 = p ++ " ...") :=
  C1_amended_column_width dfAB 10 colName (by decide) (by decide)

end PandasHelpers
